import Mathlib

/-!
Verification of the ActionMan build-tool orchestration logic.

The definitions below are a shallow embedding of the Python sources:
`actionman/utils.py`, `actionman/core.py`, `actionman/cli.py`, and the
modules `build_operations.py`, `run_operations.py`, `test_operations.py`.
Paths are modelled either as plain strings (mirroring `os.path` string
operations) or as lists of path components (for the filesystem model used
by glob-based executable resolution and by `clean`). Subprocess
invocations are modelled by the argument lists the code constructs and by
the working directory it passes to its command runner.
-/

namespace Actionman

/-- The three build types accepted by the tool
(keys of `CMAKE_BUILD_MAP` in `utils.py`). -/
inductive BuildType where
  | debug
  | profile
  | release
deriving DecidableEq, Repr

/-- All build types, in the iteration order of `CMAKE_BUILD_MAP.keys()`
(Python dicts preserve insertion order: debug, profile, release). -/
def allBuildTypes : List BuildType := [.debug, .profile, .release]

/-- `CMAKE_BUILD_MAP` from `utils.py`, restricted to its (fixed) keys. -/
def cmakeBuildMap : BuildType → String
  | .debug => "Debug"
  | .profile => "RelWithDebInfo"
  | .release => "Release"

/-- `CMAKE_BUILD_MAP` as a partial string lookup: `d[key]` raises
`KeyError` exactly when this returns `none`. -/
def cmakeBuildMapGet (key : String) : Option String :=
  if key = "debug" then some "Debug"
  else if key = "profile" then some "RelWithDebInfo"
  else if key = "release" then some "Release"
  else none

/-- Python `str.startswith`, computed structurally on the character
lists underlying the strings. -/
def strStartsWith (s pat : String) : Bool := pat.data.isPrefixOf s.data

/-- Suffix test on strings, computed structurally. -/
def strEndsWith (s pat : String) : Bool := pat.data.isSuffixOf s.data

/-- Python `str.lower` on the ASCII command names this tool
compares. -/
def lowerString (s : String) : String := ⟨s.data.map Char.toLower⟩

/-- `os.path.isabs` on POSIX: the path starts with a slash. -/
def isAbs (p : String) : Bool := strStartsWith p "/"

/-- `os.path.join(a, b)` on POSIX for two components: an absolute `b`
replaces `a`; otherwise a separator is inserted unless `a` already ends
with one or is empty. -/
def joinPath (a b : String) : String :=
  if isAbs b then b
  else if a = "" || strEndsWith a "/" then a ++ b
  else a ++ "/" ++ b

/-- The cmake configure command built in `BuildOperations.configure` /
`BuildManager.configure`:
`["cmake", "-G", generator, "-S", ".", "-B", build_dir,
  "-DCMAKE_BUILD_TYPE=<mapped>"] + flags`. -/
def configureCmd (generator : String) (buildDir : String) (bt : BuildType)
    (flags : List String) : List String :=
  ["cmake", "-G", generator, "-S", ".", "-B", buildDir,
    "-DCMAKE_BUILD_TYPE=" ++ cmakeBuildMap bt] ++ flags

/-- The cmake build-driver command built in `BuildOperations.build` /
`BuildManager.build`: `["cmake", "--build", ".", "-j<cpu_count>"]`. -/
def buildDriverCmd (cpuCount : Nat) : List String :=
  ["cmake", "--build", ".", "-j" ++ toString cpuCount]

/-- `extract_prefix` from `cli.py`: walk the option list; an option
starting with `"--prefix="` sets the prefix variable to
`opt.split("=", 1)[1]` (which, under the guard, is the text after
`"--prefix="`) and is dropped; every other option is appended to the
result in order. -/
def extractPrefixArg (options : List String) :
    List String × Option String :=
  go options [] none
where
  go : List String → List String → Option String →
      List String × Option String
    | [], acc, pfx => (acc, pfx)
    | opt :: rest, acc, pfx =>
      if strStartsWith opt "--prefix=" then
        go rest acc (some (opt.drop 9))
      else
        go rest (acc ++ [opt]) pfx

/-! ### Filesystem and glob model for executable resolution -/

/-- An existing filesystem path, as a list of name components, together
with the two attributes `_find_executable` inspects:
`os.path.isfile` and `os.access(-, os.R_OK)`. -/
structure Entry where
  path : List String
  isFile : Bool
  readable : Bool
deriving DecidableEq, Repr

/-- A filesystem state: the list of existing paths, in the enumeration
order that `glob.glob` reports matches. -/
abbrev FS := List Entry

/-- One component of a glob pattern: a literal name, or a wildcard.
`_find_executable` calls `glob.glob` without `recursive=True`, so a
`**` component behaves exactly like `*`: it matches a single
non-hidden name. -/
inductive GlobComp where
  | lit (s : String)
  | star
deriving DecidableEq, Repr

/-- Component match: a literal matches itself; `*` matches any name not
starting with a dot (glob never matches hidden files). -/
def globCompMatch : GlobComp → String → Bool
  | .lit s, c => c = s
  | .star, c => !c.startsWith "."

/-- A pattern matches a path when they have the same number of
components and each component matches. -/
def globMatch : List GlobComp → List String → Bool
  | [], [] => true
  | g :: gs, c :: cs => globCompMatch g c && globMatch gs cs
  | _, _ => false

/-- The fixed, ordered pattern list of `RunOperations._find_executable`
(`run_operations.py` lines 44-49), with
`base = build_dir/<CMAKE_BUILD_MAP[build_type]>`:
`base/bin/*`, `base/**/*`, `build_dir/bin/<mapped>/*`, `build_dir/**/*`. -/
def findExecutablePatterns (buildDir : List String) (bt : BuildType) :
    List (List GlobComp) :=
  let bd := buildDir.map GlobComp.lit
  let base := bd ++ [GlobComp.lit (cmakeBuildMap bt)]
  [base ++ [GlobComp.lit "bin", GlobComp.star],
   base ++ [GlobComp.star, GlobComp.star],
   bd ++ [GlobComp.lit "bin", GlobComp.lit (cmakeBuildMap bt), GlobComp.star],
   bd ++ [GlobComp.star, GlobComp.star]]

/-- The inner loop of `_find_executable`: scan the glob matches of one
pattern and return the first that is a regular file and readable. -/
def findFirstGood (pat : List GlobComp) : FS → Option (List String)
  | [] => none
  | e :: rest =>
    if globMatch pat e.path && e.isFile && e.readable then some e.path
    else findFirstGood pat rest

/-- The outer loop of `_find_executable`: try each pattern in order. -/
def searchPatterns : List (List GlobComp) → FS → Option (List String)
  | [], _ => none
  | pat :: rest, fs =>
    match findFirstGood pat fs with
    | some p => some p
    | none => searchPatterns rest fs

/-- `RunOperations._find_executable`: `none` models the
`FileNotFoundError` raised after all patterns are exhausted. -/
def findExecutable (fs : FS) (buildDir : List String) (bt : BuildType) :
    Option (List String) :=
  searchPatterns (findExecutablePatterns buildDir bt) fs

/-! ### Run with a single build retry -/

/-- Outcome of `RunOperations.run` resolution, recording how many times
`self.build_ops.build` was invoked. `notFound` models the
`FileNotFoundError` from the second resolution attempt, which no
handler in `run` catches. -/
inductive RunResolution where
  | ran (exe : List String) (builds : Nat)
  | notFound (builds : Nat)
deriving DecidableEq, Repr

/-- The resolution logic of `RunOperations.run` (lines 71-80): try to
find the executable; on `FileNotFoundError` build once (the build's
effect on the filesystem is the `buildEffect` parameter) and try to find
it exactly once more; a second failure propagates. -/
def runResolve (fs : FS) (buildEffect : FS → FS) (buildDir : List String)
    (bt : BuildType) : RunResolution :=
  match findExecutable fs buildDir bt with
  | some exe => .ran exe 0
  | none =>
    match findExecutable (buildEffect fs) buildDir bt with
    | some exe => .ran exe 1
    | none => .notFound 1

/-! ### build_all -/

/-- The `build_all` loop of `BuildOperations.build_all` /
`BuildManager.build_all`: iterate the three build types in map order,
attempt `self.build` for each (its success is the `outcome` oracle;
a failure raises `SystemExit`, is caught, and is recorded), then after
the summary call `sys.exit(1)` iff any configuration failed. Returns
the `(build_type, success)` results in order and the process exit
code contribution (0 when `build_all` returns normally). -/
def buildAll (outcome : BuildType → Bool) :
    List (BuildType × Bool) × Nat :=
  let step := fun (acc : List (BuildType × Bool) × Bool) (bt : BuildType) =>
    if outcome bt then (acc.1 ++ [(bt, true)], acc.2)
    else (acc.1 ++ [(bt, false)], false)
  let res := allBuildTypes.foldl step ([], true)
  (res.1, if res.2 then 0 else 1)

/-! ### CLI dispatch and process exit codes -/

/-- The keys of the command-dispatch dictionary in `cli.main`
(`cli.py` lines 200-207). -/
def knownCommands : List String :=
  ["clean", "build", "run", "test", "install", "info"]

/-- How a call of `main` terminates the Python process:
return normally, call `sys.exit(code)`, raise `KeyboardInterrupt`,
or raise some other uncaught exception. -/
inductive PyTermination where
  | returned
  | sysExit (code : Nat)
  | interrupt
  | raised
deriving DecidableEq, Repr

/-- The command dispatch at the end of `cli.main` (lines 194-214):
the parsed command is lower-cased; a known command runs its handler;
an unknown command prints an error plus the help text and `main`
returns normally. -/
def dispatchCommand (command : String)
    (handler : String → PyTermination) : PyTermination :=
  if knownCommands.contains (lowerString command) then
    handler (lowerString command)
  else .returned

/-- Exceptions relevant to the error-handling paths. -/
inductive PyExc where
  | keyError
  | calledProcessError
  | fileNotFound
deriving DecidableEq, Repr

/-- The error mapping shared by `utils.handle_errors` and the
`try/except` blocks of every `BuildManager` method: `KeyError`
(invalid build type) and `subprocess.CalledProcessError` (fatal
subprocess failure) both print a message and call `sys.exit(1)`;
any other exception propagates. -/
def coreMethodTermination (body : Except PyExc Unit) : PyTermination :=
  match body with
  | .ok _ => .returned
  | .error .keyError => .sysExit 1
  | .error .calledProcessError => .sysExit 1
  | .error .fileNotFound => .raised

/-- The `__main__` block of `cli.py` (lines 217-222) composed with
CPython process semantics: a normal return exits 0, `sys.exit(code)`
exits with `code`, `KeyboardInterrupt` is caught and mapped to
`sys.exit(130)`, and any other uncaught exception exits 1. -/
def scriptExit : PyTermination → Nat
  | .returned => 0
  | .sysExit code => code
  | .interrupt => 130
  | .raised => 1

/-! ### install and test command construction -/

/-- The install invocation of `BuildManager.install` (`core.py` lines
392-394): a truthy prefix is appended unchanged, with no resolution
against the project root. -/
def installCmdCore (pfx : Option String) : List String :=
  ["cmake", "--install", "."] ++
    match pfx with
    | some p => if p = "" then [] else ["--prefix", p]
    | none => []

/-- The install invocation of `BuildOperations.install`
(`build_operations.py` lines 194-198): a truthy relative prefix is
first joined onto `self.cwd`; an absolute one is kept as is. -/
def installCmdModules (cwd : String) (pfx : Option String) :
    List String :=
  ["cmake", "--install", "."] ++
    match pfx with
    | some p =>
      if p = "" then []
      else ["--prefix", if isAbs p then p else joinPath cwd p]
    | none => []

/-- The ctest command of `TestOperations.test` / `BuildManager.test`:
`["ctest", "--output-on-failure"]`, extended by `["-R", filter]` when
the filter string is truthy (non-empty). -/
def testCmd (filterStr : String) : List String :=
  ["ctest", "--output-on-failure"] ++
    (if filterStr = "" then [] else ["-R", filterStr])

/-- A subprocess invocation: the argument list and the working
directory handed to the command runner. -/
structure Invocation where
  cmd : List String
  cwd : String
deriving DecidableEq, Repr

/-- `TestOperations.test` (`test_operations.py` line 64) runs the ctest
command with `run_command(cmd, cwd=self.build_ops.cwd)`: the working
directory is the project root. -/
def testInvocationModules (cwd buildDir : String) (filterStr : String) :
    Invocation :=
  { cmd := testCmd filterStr, cwd := cwd }

/-- `BuildManager.test` (`core.py` line 321) runs the ctest command
with `self.run_command(cmd, self.build_dir)`: the working directory is
the build directory. -/
def testInvocationCore (cwd buildDir : String) (filterStr : String) :
    Invocation :=
  { cmd := testCmd filterStr, cwd := buildDir }

/-! ### clean -/

/-- `os.path.exists` over the filesystem model. -/
def existsPath (fs : FS) (p : List String) : Bool :=
  fs.any (fun e => e.path = p)

/-- Path rendering used only for the printed messages. -/
def pathToString (p : List String) : String :=
  String.intercalate "/" p

/-- `os.path.basename` of a component path. -/
def baseName (p : List String) : String := p.getLast?.getD ""

/-- Result of `clean_directory`: the filesystem afterwards and the
lines printed. The Python body cannot raise: the missing-directory
branch returns before any mutation, and the removal branch uses
`shutil.rmtree(..., ignore_errors=True)` inside a `try/except` that
only prints. -/
structure CleanResult where
  fs : FS
  output : List String
deriving DecidableEq, Repr

/-- `BuildManager.clean_directory` (`core.py` lines 237-261): if the
directory does not exist, print an informational message and return
with the filesystem untouched; otherwise remove the directory tree. -/
def cleanDirectory (fs : FS) (dir : List String) : CleanResult :=
  if existsPath fs dir then
    { fs := fs.filter (fun e => !(dir.isPrefixOf e.path)),
      output := ["Cleaning " ++ baseName dir ++ " directory...",
                 "Cleaned " ++ baseName dir ++ " directory."] }
  else
    { fs := fs,
      output := ["Directory " ++ pathToString dir ++
                 " does not exist. Nothing to clean."] }

/-! ### Manager state across operations -/

/-- The attribute pair set by `BuildManager.__init__` /
`BuildOperations.__init__` and read (never written) by every
operation. -/
structure Manager where
  cwd : String
  buildDir : String
deriving DecidableEq, Repr

/-- `BuildManager.__init__`: `self.cwd = cwd`;
`self.build_dir = os.path.join(self.cwd, "build")`. -/
def initManager (cwd : String) : Manager :=
  { cwd := cwd, buildDir := joinPath cwd "build" }

/-- `BuildOperations.__init__`: an absolute `build_dir` argument is
kept, a relative one is joined onto `cwd`, and a missing one defaults
to `<cwd>/build`. -/
def initBuildOps (cwd : String) (buildDir : Option String) : Manager :=
  { cwd := cwd,
    buildDir :=
      match buildDir with
      | some d => if isAbs d then d else joinPath cwd d
      | none => joinPath cwd "build" }

/-- Mutable world seen by the operations: the manager object's
attributes and a set of existing filesystem paths (as strings, the
representation the Python code passes around). -/
structure OpState where
  mgr : Manager
  fs : List String
deriving Repr

/-- `os.makedirs(p, exist_ok=True)` on the string-path world. -/
def mkdirp (fs : List String) (p : String) : List String :=
  if fs.contains p then fs else fs ++ [p]

/-- `shutil.rmtree` on the string-path world: drop the directory and
everything below it. -/
def rmtreePaths (fs : List String) (dir : String) : List String :=
  fs.filter (fun q => !(q = dir || q.startsWith (dir ++ "/")))

/-- The user-facing operations of the facade. The `found` payload of
`run` records whether the first executable resolution succeeded (in
the source this is determined by the filesystem; carrying it as data
lets one state covers both branches). -/
inductive Op where
  | configure (bt : BuildType) (flags : List String)
  | build (bt : BuildType) (flags : List String)
  | buildAllOp
  | run (bt : BuildType) (params : List String) (found : Bool)
  | test (bt : BuildType) (filterStr : String)
  | testAllOp
  | install (bt : BuildType) (pfx : Option String)
  | clean
deriving Repr

/-- `configure`: create the build directory, then invoke cmake (whose
effect on the world is the external oracle `ext`). Writes no manager
attribute. -/
def configureStep (ext : List String → List String) (st : OpState) :
    OpState :=
  { st with fs := ext (mkdirp st.fs st.mgr.buildDir) }

/-- `build`: configure, then invoke the build driver. -/
def buildStep (ext : List String → List String) (st : OpState) :
    OpState :=
  let st1 := configureStep ext st
  { st1 with fs := ext st1.fs }

/-- `test`: build when the build directory is missing, then invoke
ctest. -/
def testStep (ext : List String → List String) (st : OpState) :
    OpState :=
  let st1 := if st.fs.contains st.mgr.buildDir then st else buildStep ext st
  { st1 with fs := ext st1.fs }

/-- `install`: build when the build directory is missing, then invoke
the install step and the post-install verification probes. -/
def installStep (ext : List String → List String) (st : OpState) :
    OpState :=
  let st1 := if st.fs.contains st.mgr.buildDir then st else buildStep ext st
  { st1 with fs := ext st1.fs }

/-- `run`: when the executable was not found, build once; then chmod
and execute it (external effects). -/
def runStep (ext : List String → List String) (found : Bool)
    (st : OpState) : OpState :=
  let st1 := if found then st else buildStep ext st
  { st1 with fs := ext st1.fs }

/-- One facade operation, with `ext` standing for every
subprocess-driven change to the world. None of the branches assigns
`self.cwd` or `self.build_dir`. -/
def applyOp (ext : List String → List String) (st : OpState) :
    Op → OpState
  | .configure _ _ => configureStep ext st
  | .build _ _ => buildStep ext st
  | .buildAllOp => allBuildTypes.foldl (fun s _ => buildStep ext s) st
  | .run _ _ found => runStep ext found st
  | .test _ _ => testStep ext st
  | .testAllOp => allBuildTypes.foldl (fun s _ => testStep ext s) st
  | .install _ _ => installStep ext st
  | .clean => { st with fs := rmtreePaths st.fs st.mgr.buildDir }

/-- A whole session: fold a list of operations over the initial
state. -/
def runOps (ext : List String → List String) (st : OpState)
    (ops : List Op) : OpState :=
  ops.foldl (applyOp ext) st

/-! ## Helper lemmas -/

theorem findFirstGood_eq (pat : List GlobComp) (fs : FS) :
    findFirstGood pat fs =
      ((fs.filter (fun e => globMatch pat e.path)).find?
        (fun e => e.isFile && e.readable)).map Entry.path := by
  induction fs with
  | nil => rfl
  | cons e rest ih =>
    simp only [findFirstGood, List.filter_cons]
    cases hm : globMatch pat e.path with
    | true =>
      cases hf : (e.isFile && e.readable) with
      | true => simp [List.find?_cons, hm, hf]
      | false => simp [List.find?_cons, hm, hf, ih]
    | false => simp [hm, ih]

theorem searchPatterns_eq (pats : List (List GlobComp)) (fs : FS) :
    searchPatterns pats fs =
      ((pats.flatMap (fun pat =>
          fs.filter (fun e => globMatch pat e.path))).find?
        (fun e => e.isFile && e.readable)).map Entry.path := by
  induction pats with
  | nil => rfl
  | cons pat rest ih =>
    simp only [searchPatterns, List.flatMap_cons, List.find?_append,
      findFirstGood_eq]
    cases h : (fs.filter (fun e => globMatch pat e.path)).find?
        (fun e => e.isFile && e.readable) with
    | none => simp [h, ih]
    | some e => simp [h]

theorem exists_buildType_iff (p : BuildType → Prop) :
    (∃ bt, p bt) ↔ p .debug ∨ p .profile ∨ p .release := by
  constructor
  · rintro ⟨bt, h⟩
    cases bt
    · exact Or.inl h
    · exact Or.inr (Or.inl h)
    · exact Or.inr (Or.inr h)
  · rintro (h | h | h) <;> exact ⟨_, h⟩

theorem applyOp_preserves_mgr (ext : List String → List String)
    (st : OpState) (op : Op) : (applyOp ext st op).mgr = st.mgr := by
  cases op with
  | configure bt flags => rfl
  | build bt flags => rfl
  | buildAllOp => rfl
  | run bt params found => cases found <;> rfl
  | test bt filterStr =>
    show (testStep ext st).mgr = st.mgr
    unfold testStep
    cases hc : st.fs.contains st.mgr.buildDir <;> simp [hc, buildStep,
      configureStep]
  | testAllOp =>
    show (allBuildTypes.foldl (fun s _ => testStep ext s) st).mgr = st.mgr
    have hstep : ∀ s : OpState, (testStep ext s).mgr = s.mgr := by
      intro s
      unfold testStep
      cases hc : s.fs.contains s.mgr.buildDir <;> simp [hc, buildStep,
        configureStep]
    simp [allBuildTypes, hstep]
  | install bt pfx =>
    show (installStep ext st).mgr = st.mgr
    unfold installStep
    cases hc : st.fs.contains st.mgr.buildDir <;> simp [hc, buildStep,
      configureStep]
  | clean => rfl

theorem extractPrefixArg_go_eq (options acc : List String)
    (pfx : Option String) :
    extractPrefixArg.go options acc pfx =
      (acc ++ options.filter (fun o => !strStartsWith o "--prefix="),
        match (options.filter
            (fun o => strStartsWith o "--prefix=")).getLast? with
        | some o => some (o.drop 9)
        | none => pfx) := by
  induction options generalizing acc pfx with
  | nil => simp [extractPrefixArg.go]
  | cons opt rest ih =>
    cases h : strStartsWith opt "--prefix=" with
    | true =>
      simp only [extractPrefixArg.go, h, ih, List.filter_cons,
        Bool.not_true, if_true, if_false]
      cases hr : (rest.filter
          (fun o => strStartsWith o "--prefix=")).getLast? with
      | none => simp [List.getLast?_cons, hr]
      | some o => simp [List.getLast?_cons, hr]
    | false =>
      simp only [extractPrefixArg.go, h, ih, List.filter_cons,
        Bool.not_false, if_true, if_false]
      simp

/-! ## Claim theorems -/

/-- C1: `_find_executable` searches the fixed ordered pattern list under
the build directory and returns the first matched path that is a regular
readable file; it reports not-found (here `none`, for the raised
`FileNotFoundError`) exactly when no pattern yields such a path. -/
theorem findExecutable_first_readable_file (fs : FS)
    (buildDir : List String) (bt : BuildType) :
    findExecutable fs buildDir bt =
      (((findExecutablePatterns buildDir bt).flatMap
          (fun pat => fs.filter (fun e => globMatch pat e.path))).find?
        (fun e => e.isFile && e.readable)).map Entry.path
    ∧ (findExecutable fs buildDir bt = none ↔
        ∀ e ∈ fs, ∀ pat ∈ findExecutablePatterns buildDir bt,
          globMatch pat e.path = true → (e.isFile && e.readable) = false) := by
  constructor
  · exact searchPatterns_eq _ _
  · show searchPatterns _ _ = none ↔ _
    rw [searchPatterns_eq]
    simp only [Option.map_eq_none', List.find?_eq_none, List.mem_flatMap,
      List.mem_filter, Bool.not_eq_true]
    constructor
    · intro h e he pat hpat hm
      exact h e ⟨pat, hpat, he, hm⟩
    · rintro h e ⟨pat, hpat, he, hm⟩
      exact h e he pat hpat hm

/-- C2: when `run` finds no executable it triggers exactly one build and
resolves again; if the executable is still absent after that single
build, the second `FileNotFoundError` propagates (no second build, no
loop). -/
theorem run_single_build_retry (fs : FS) (buildEffect : FS → FS)
    (buildDir : List String) (bt : BuildType)
    (h : findExecutable fs buildDir bt = none) :
    (findExecutable (buildEffect fs) buildDir bt = none →
      runResolve fs buildEffect buildDir bt = .notFound 1)
    ∧ (∀ exe, findExecutable (buildEffect fs) buildDir bt = some exe →
      runResolve fs buildEffect buildDir bt = .ran exe 1) := by
  constructor
  · intro h2
    simp [runResolve, h, h2]
  · intro exe h2
    simp [runResolve, h, h2]

/-- Witness for C2: on an empty filesystem with a build that produces
nothing, `run` performs exactly one build and then reports not-found. -/
theorem run_single_build_retry_witness :
    findExecutable [] [] .debug = none
    ∧ runResolve [] (fun fs => fs) [] .debug = .notFound 1 :=
  ⟨rfl, (run_single_build_retry [] (fun fs => fs) [] .debug rfl).1 rfl⟩

/-- C3: `build_all` attempts every one of the three build types in
order, regardless of earlier failures, records each outcome, and its
exit-status contribution is non-zero iff at least one configuration
failed. -/
theorem buildAll_attempts_all_and_exit (outcome : BuildType → Bool) :
    (buildAll outcome).1 = allBuildTypes.map (fun bt => (bt, outcome bt))
    ∧ ((buildAll outcome).2 ≠ 0 ↔ ∃ bt, outcome bt = false) := by
  rw [exists_buildType_iff (fun bt => outcome bt = false)]
  cases h1 : outcome .debug <;> cases h2 : outcome .profile <;>
    cases h3 : outcome .release <;>
    simp [buildAll, allBuildTypes, h1, h2, h3]

/-- C4 (evaluation at the failing input): a successful dispatched
command exits 0; a fatal subprocess failure and an invalid build type
both exit 1; keyboard interrupt exits 130; but an unknown command makes
`main` print help and return normally, so the process exits 0, not 1. -/
theorem cli_exit_codes_eval :
    scriptExit (dispatchCommand "build"
        (fun _ => coreMethodTermination (.ok ()))) = 0
    ∧ scriptExit (dispatchCommand "build"
        (fun _ => coreMethodTermination (.error .calledProcessError))) = 1
    ∧ scriptExit (dispatchCommand "build"
        (fun _ => coreMethodTermination (.error .keyError))) = 1
    ∧ scriptExit PyTermination.interrupt = 130
    ∧ scriptExit (dispatchCommand "frobnicate"
        (fun _ => .sysExit 1)) = 0 := by
  refine ⟨by decide, by decide, by decide, by decide, by decide⟩

/-- C5: `configure` passes exactly the mapped build-type define for
each of the three build types. -/
theorem configure_uses_mapped_build_type (generator buildDir : String)
    (flags : List String) :
    "-DCMAKE_BUILD_TYPE=Debug" ∈ configureCmd generator buildDir .debug flags
    ∧ "-DCMAKE_BUILD_TYPE=RelWithDebInfo" ∈
        configureCmd generator buildDir .profile flags
    ∧ "-DCMAKE_BUILD_TYPE=Release" ∈
        configureCmd generator buildDir .release flags
    ∧ ∀ bt, configureCmd generator buildDir bt flags =
        ["cmake", "-G", generator, "-S", ".", "-B", buildDir,
          "-DCMAKE_BUILD_TYPE=" ++ cmakeBuildMap bt] ++ flags := by
  refine ⟨?_, ?_, ?_, fun bt => rfl⟩ <;> simp [configureCmd, cmakeBuildMap]

/-- C6 counterexample: `BuildManager.install` (core.py) passes the
relative prefix "custom" to the install invocation unchanged, not
resolved against the project root "/proj". -/
theorem install_core_relative_unresolved :
    isAbs "custom" = false
    ∧ installCmdCore (some "custom") =
        ["cmake", "--install", ".", "--prefix", "custom"]
    ∧ joinPath "/proj" "custom" = "/proj/custom"
    ∧ ("custom" : String) ≠ "/proj/custom" := by
  refine ⟨by decide, by decide, by decide, by decide⟩

/-- C6 amended: `BuildOperations.install` resolves a non-empty relative
prefix against the project root and passes an absolute one unchanged;
`BuildManager.install` passes any non-empty prefix unchanged. -/
theorem install_prefix_resolution (cwd p : String) (hp : p ≠ "") :
    (isAbs p = false →
      installCmdModules cwd (some p) =
        ["cmake", "--install", ".", "--prefix", joinPath cwd p])
    ∧ (isAbs p = true →
      installCmdModules cwd (some p) =
        ["cmake", "--install", ".", "--prefix", p])
    ∧ installCmdCore (some p) =
        ["cmake", "--install", ".", "--prefix", p] := by
  refine ⟨fun h => ?_, fun h => ?_, ?_⟩ <;>
    simp_all [installCmdModules, installCmdCore]

/-- Witness for the amended C6: with project root "/proj" and relative
prefix "custom", `BuildOperations.install` passes "/proj/custom". -/
theorem install_prefix_resolution_witness :
    ("custom" : String) ≠ ""
    ∧ installCmdModules "/proj" (some "custom") =
        ["cmake", "--install", ".", "--prefix", "/proj/custom"] := by
  refine ⟨by decide, ?_⟩
  have h := (install_prefix_resolution "/proj" "custom" (by decide)).1
    (by decide)
  rw [h]
  decide

/-- C7 (evaluation at the failing input): `TestOperations.test` with
build type release and filter "FooTest" constructs
`["ctest", "--output-on-failure", "-R", "FooTest"]` (and omits `-R`
for an empty filter), but hands the command runner the project root
"/proj" as working directory, not the build directory "/proj/build";
the facade `BuildManager.test` uses the build directory. -/
theorem test_invocation_eval :
    (testInvocationModules "/proj" "/proj/build" "FooTest").cmd =
        ["ctest", "--output-on-failure", "-R", "FooTest"]
    ∧ (testInvocationModules "/proj" "/proj/build" "FooTest").cwd = "/proj"
    ∧ (testInvocationModules "/proj" "/proj/build" "FooTest").cwd ≠
        "/proj/build"
    ∧ testInvocationCore "/proj" "/proj/build" "FooTest" =
        { cmd := ["ctest", "--output-on-failure", "-R", "FooTest"],
          cwd := "/proj/build" }
    ∧ (testInvocationModules "/proj" "/proj/build" "").cmd =
        ["ctest", "--output-on-failure"] := by
  refine ⟨by decide, by decide, by decide, by decide, by decide⟩

/-- C8: `clean_directory` on a directory that does not exist prints a
single informational message, returns with the filesystem completely
unchanged, and raises nothing (the missing-directory branch returns
before any mutation). -/
theorem clean_missing_directory_noop (fs : FS) (dir : List String)
    (h : existsPath fs dir = false) :
    cleanDirectory fs dir =
      { fs := fs,
        output := ["Directory " ++ pathToString dir ++
                   " does not exist. Nothing to clean."] } := by
  simp [cleanDirectory, h]

/-- Witness for C8: cleaning `tmp/build` on an empty filesystem leaves
it empty and prints only the informational message. -/
theorem clean_missing_directory_noop_witness :
    existsPath [] ["tmp", "build"] = false
    ∧ cleanDirectory [] ["tmp", "build"] =
      { fs := [],
        output :=
          ["Directory tmp/build does not exist. Nothing to clean."] } := by
  refine ⟨by decide, ?_⟩
  rw [clean_missing_directory_noop [] ["tmp", "build"] (by decide)]
  decide

/-- C9: the `(cwd, build_dir)` pair fixed by either constructor is
never mutated by any sequence of operations: after any session the
manager attributes equal their constructor-derived values. -/
theorem manager_pair_immutable (ext : List String → List String)
    (cwd : String) (buildDirArg : Option String) (fs0 : List String)
    (ops : List Op) :
    (runOps ext { mgr := initBuildOps cwd buildDirArg, fs := fs0 }
        ops).mgr = initBuildOps cwd buildDirArg
    ∧ (runOps ext { mgr := initManager cwd, fs := fs0 } ops).mgr =
        initManager cwd := by
  have key : ∀ (st : OpState) (l : List Op), (runOps ext st l).mgr = st.mgr := by
    intro st l
    induction l generalizing st with
    | nil => rfl
    | cons op rest ih =>
      show (runOps ext (applyOp ext st op) rest).mgr = st.mgr
      rw [ih, applyOp_preserves_mgr]
  exact ⟨key _ _, key _ _⟩

/-- C10: `extract_prefix` drops every option starting with
`"--prefix="`, keeps the remaining options in their original order,
and returns the value of the last `"--prefix="` option when one is
present and `none` otherwise. -/
theorem extractPrefixArg_spec (options : List String) :
    extractPrefixArg options =
      (options.filter (fun o => !strStartsWith o "--prefix="),
        ((options.filter
            (fun o => strStartsWith o "--prefix=")).getLast?).map
          (fun o => o.drop 9)) := by
  rw [extractPrefixArg, extractPrefixArg_go_eq]
  cases h : (options.filter (fun o => strStartsWith o "--prefix=")).getLast?
    with
  | none => simp [h]
  | some o => simp [h]

end Actionman
